import Mathlib

/-!
Verification development for the WGAN training loop in
`src/Marked_exercises_2/WGAN/trainer.py`.

The trainer is embedded shallowly: real-valued tensors are modelled over `ℚ`
so every definition is executable and every comparison decidable; the two
networks and the two optimizers are external collaborators of the trainer
(they are constructor arguments in the source), so they appear here as
function-valued fields; `torch.rand` draws are modelled by an explicit stream
of latent batches, one per batch index; file system and plotting side effects
(model saving, loss plots, sample-image rendering) carry no trainer state and
are omitted. Each step function is a pure state transformer on the trainer
state, translated line by line from the source.
-/

/-- One image, flattened to a list of rational scalars. -/
abbrev Image := List ℚ

/-- One latent vector `z`, flattened to a list of rational scalars. -/
abbrev Latent := List ℚ

/-- `tensor.mean()` over a flat list of scalars: sum divided by length.
The claims only ever take means of nonempty batches, so the `0 / 0` corner
of rational division is never exercised. -/
def tmean (xs : List ℚ) : ℚ := xs.sum / xs.length

/-- `Tensor.clamp_(lo, hi)` on one scalar: `min hi (max lo x)`, the order in
which the tensor library applies the two bounds. -/
def clampScalar (lo hi x : ℚ) : ℚ := min hi (max lo x)

/-- The generator network `model_gen`: trainable parameters (a flat list of
scalars), a forward function from parameters and a latent vector to an image,
the per-parameter `requires_grad` flag toggled by `set_model_require_grad`,
and the train/eval `training` mode flag. The architecture itself is an
unspecified external collaborator, hence the function-valued field. -/
structure GenModel where
  params : List ℚ
  forward : List ℚ → Latent → Image
  requiresGrad : Bool
  training : Bool

/-- The critic network `model_disc`: parameters, a forward function from
parameters and an image to a scalar score, the `requires_grad` flag and the
`training` mode flag. -/
structure DiscModel where
  params : List ℚ
  forward : List ℚ → Image → ℚ
  requiresGrad : Bool
  training : Bool

/-- `optimizer_gen`, an external collaborator owning the update rule for the
generator parameters. `loss_gen.backward(); optimizer_gen.step()` is modelled
as one abstract update whose arguments are exactly the data the gradient of
`-mean(critic(generator(z)))` depends on: the current generator parameters,
the critic parameters and the latent batch. Its result replaces only the
generator parameters: stepping this optimizer cannot touch the critic. -/
structure GenOptimizer where
  step : List ℚ → List ℚ → List Latent → List ℚ

/-- `optimizer_disc`, the critic optimizer. Its abstract update receives the
data the gradient of the critic loss depends on: the current critic
parameters, the fake image batch (detached, so a constant for the gradient)
and the real image batch. Its result replaces only the critic parameters. -/
structure DiscOptimizer where
  step : List ℚ → List Image → List Image → List ℚ

/-- The trainer state: the fields `__init__` stores on `self`. The device,
the two directory paths and their creation are environment setup with no
bearing on the training algorithm. -/
structure WGANTrainer where
  model_gen : GenModel
  model_disc : DiscModel
  optimizer_gen : GenOptimizer
  optimizer_disc : DiscOptimizer
  n_disc_steps : ℕ
  weight_cliping : ℚ
  disc_loss_log : List ℚ
  gen_loss_log : List ℚ
  fixed_z_for_check : List Latent
  fixed_z_for_eval : List Latent

/-- Default of the `n_disc_steps` keyword parameter of `__init__`. -/
def default_n_disc_steps : ℕ := 1

/-- Default of the `weight_cliping` keyword parameter of `__init__`:
the source reads `weight_cliping=0.001`. -/
def default_weight_cliping : ℚ := 1 / 1000

/-- `WGANTrainer.__init__`: store the collaborators and hyperparameters,
start both loss logs empty, load the fixed latent batch (the `torch.load`
result is passed in as `fixed_z`, it being an external input file) and keep
its first five entries for evaluation plots. No parameter is modified. -/
def WGANTrainer.init (model_gen : GenModel) (model_disc : DiscModel)
    (optimizer_gen : GenOptimizer) (optimizer_disc : DiscOptimizer)
    (n_disc_steps : ℕ) (weight_cliping : ℚ) (fixed_z : List Latent) :
    WGANTrainer :=
  { model_gen := model_gen
    model_disc := model_disc
    optimizer_gen := optimizer_gen
    optimizer_disc := optimizer_disc
    n_disc_steps := n_disc_steps
    weight_cliping := weight_cliping
    disc_loss_log := []
    gen_loss_log := []
    fixed_z_for_check := fixed_z
    fixed_z_for_eval := fixed_z.take 5 }

/-- A call of `WGANTrainer(...)` that leaves both keyword parameters at
their declared defaults. -/
def WGANTrainer.init_default (model_gen : GenModel) (model_disc : DiscModel)
    (optimizer_gen : GenOptimizer) (optimizer_disc : DiscOptimizer)
    (fixed_z : List Latent) : WGANTrainer :=
  WGANTrainer.init model_gen model_disc optimizer_gen optimizer_disc
    default_n_disc_steps default_weight_cliping fixed_z

/-- `set_model_require_grad(model, require_grad)` on the generator: set the
flag on every parameter of the model. -/
def set_model_require_grad_gen (model : GenModel) (require_grad : Bool) :
    GenModel :=
  { model with requiresGrad := require_grad }

/-- `set_model_require_grad(model, require_grad)` on the critic. -/
def set_model_require_grad_disc (model : DiscModel) (require_grad : Bool) :
    DiscModel :=
  { model with requiresGrad := require_grad }

/-- `WGANTrainer.clamp_weights`: for every parameter tensor `p` of
`model_disc`, `p.data.clamp_(-weight_cliping, weight_cliping)`. -/
def WGANTrainer.clamp_weights (st : WGANTrainer) : WGANTrainer :=
  { st with model_disc := { st.model_disc with
      params := st.model_disc.params.map
        (clampScalar (-st.weight_cliping) st.weight_cliping) } }

/-- `WGANTrainer.gen_step(z)`: zero the generator gradients (implicit in the
abstract optimizer update), produce fake images from `z`, score them with the
critic, take `loss_gen = -critic_fake.mean()`, back-propagate and step the
generator optimizer, then append `loss_gen.item()` to `gen_loss_log`. -/
def WGANTrainer.gen_step (st : WGANTrainer) (z : List Latent) : WGANTrainer :=
  let fake_images := z.map (st.model_gen.forward st.model_gen.params)
  let critic_fake := fake_images.map (st.model_disc.forward st.model_disc.params)
  let loss_gen := -(tmean critic_fake)
  let st1 := { st with model_gen := { st.model_gen with
      params := st.optimizer_gen.step st.model_gen.params st.model_disc.params z } }
  { st1 with gen_loss_log := st1.gen_loss_log ++ [loss_gen] }

/-- `WGANTrainer.disc_step(z, real_images)`: zero the critic gradients,
produce fake images from `z` with `.detach()` (so nothing here can reach the
generator parameters), score real and fake batches with the critic, take
`loss_disc = -(critic_real.mean() - critic_fake.mean())`, back-propagate and
step the critic optimizer, clamp the critic weights, then append
`loss_disc.item()` to `disc_loss_log`. -/
def WGANTrainer.disc_step (st : WGANTrainer) (z : List Latent)
    (real_images : List Image) : WGANTrainer :=
  let fake_images := z.map (st.model_gen.forward st.model_gen.params)
  let critic_real := real_images.map (st.model_disc.forward st.model_disc.params)
  let critic_fake := fake_images.map (st.model_disc.forward st.model_disc.params)
  let loss_disc := -(tmean critic_real - tmean critic_fake)
  let st1 := { st with model_disc := { st.model_disc with
      params := st.optimizer_disc.step st.model_disc.params fake_images real_images } }
  let st2 := st1.clamp_weights
  { st2 with disc_loss_log := st2.disc_loss_log ++ [loss_disc] }

/-- The body of the loop in `WGANTrainer.train_epoch`, for one enumerated
batch: draw `z` (from the explicit random stream `zs`), run `disc_step`, and
when `batch_num % n_disc_steps == 0` flip the gradient flags, run `gen_step`
with the same `z`, and flip the flags back. `real_images.to(device)` is the
identity in this model and the loader label is discarded as in the source. -/
def WGANTrainer.train_epoch_step (st : WGANTrainer) (zs : ℕ → List Latent)
    (batch_num : ℕ) (real_images : List Image) : WGANTrainer :=
  let z := zs batch_num
  let st1 := st.disc_step z real_images
  if batch_num % st1.n_disc_steps = 0 then
    let st2 := { st1 with model_disc := set_model_require_grad_disc st1.model_disc false }
    let st3 := { st2 with model_gen := set_model_require_grad_gen st2.model_gen true }
    let st4 := st3.gen_step z
    let st5 := { st4 with model_disc := set_model_require_grad_disc st4.model_disc true }
    { st5 with model_gen := set_model_require_grad_gen st5.model_gen false }
  else
    st1

/-- The enumerated loop of `train_epoch`: `enumerate(train_loader)` is
modelled by threading the batch index explicitly. `tqdm` is a progress
wrapper with no semantic content. -/
def WGANTrainer.train_epoch_batches (zs : ℕ → List Latent) :
    ℕ → List (List Image × ℕ) → WGANTrainer → WGANTrainer
  | _, [], st => st
  | batch_num, b :: rest, st =>
      WGANTrainer.train_epoch_batches zs (batch_num + 1) rest
        (st.train_epoch_step zs batch_num b.1)

/-- `WGANTrainer.train_epoch(train_loader)`: enable critic gradients, disable
generator gradients, then run the enumerated batch loop from index 0. -/
def WGANTrainer.train_epoch (st : WGANTrainer)
    (train_loader : List (List Image × ℕ)) (zs : ℕ → List Latent) :
    WGANTrainer :=
  let st1 := { st with model_disc := set_model_require_grad_disc st.model_disc true }
  let st2 := { st1 with model_gen := set_model_require_grad_gen st1.model_gen false }
  WGANTrainer.train_epoch_batches zs 0 train_loader st2

/-- Python slice `log[-n:]`: the last `n` entries, the whole list when the
list is shorter, and also the whole list when `n = 0` (since `log[-0:]` is
`log[0:]`). -/
def last_slice (n : ℕ) (l : List ℚ) : List ℚ :=
  if n = 0 then l else l.drop (l.length - n)

/-- The pair of means printed at the end of one epoch of `train`:
`np.mean(self.gen_loss_log[-len_loader:])` and
`np.mean(self.disc_loss_log[-len_loader:])`, in that order. -/
def WGANTrainer.train_report (st : WGANTrainer) (len_loader : ℕ) : ℚ × ℚ :=
  (tmean (last_slice len_loader st.gen_loss_log),
   tmean (last_slice len_loader st.disc_loss_log))

/-- The epoch loop of `train`: per epoch, put both networks in training mode,
run `train_epoch`, record the reported loss means, then switch both networks
to evaluation mode. Saving weights, plotting losses and rendering sample
images touch no trainer state and are omitted. The random stream `zs` is
indexed by epoch and then by batch index. Returns the final state and the
list of per-epoch reports. -/
def WGANTrainer.train_go (train_loader : List (List Image × ℕ))
    (zs : ℕ → ℕ → List Latent) (len_loader : ℕ) :
    ℕ → ℕ → WGANTrainer → WGANTrainer × List (ℚ × ℚ)
  | _, 0, st => (st, [])
  | epoch, n + 1, st =>
      let stA := { st with
        model_gen := { st.model_gen with training := true }
        model_disc := { st.model_disc with training := true } }
      let st1 := stA.train_epoch train_loader (zs epoch)
      let report := st1.train_report len_loader
      let stB := { st1 with
        model_gen := { st1.model_gen with training := false }
        model_disc := { st1.model_disc with training := false } }
      let p := WGANTrainer.train_go train_loader zs len_loader (epoch + 1) n stB
      (p.1, report :: p.2)

/-- `WGANTrainer.train(n_epoches, train_loader)`: compute `len_loader` once,
then run the epoch loop. -/
def WGANTrainer.train (st : WGANTrainer) (n_epoches : ℕ)
    (train_loader : List (List Image × ℕ)) (zs : ℕ → ℕ → List Latent) :
    WGANTrainer × List (ℚ × ℚ) :=
  WGANTrainer.train_go train_loader zs train_loader.length 0 n_epoches st

/-- Written from the spec text, section 4.2 item 4: the critic loss is
the negative Wasserstein estimate, `-(mean(critic(real)) - mean(critic(fake)))`
with `fake` the detached generator output on `z`. To be compared with the
value `disc_step` logs. -/
def spec_disc_loss (st : WGANTrainer) (z : List Latent)
    (real_images : List Image) : ℚ :=
  -(tmean (real_images.map (st.model_disc.forward st.model_disc.params)) -
    tmean ((z.map (st.model_gen.forward st.model_gen.params)).map
      (st.model_disc.forward st.model_disc.params)))

/-- Written from the spec text, section 4.3 item 4: the generator loss is
`-mean(critic(fake))` with `fake` the generator output on `z`. To be
compared with the value `gen_step` logs. -/
def spec_gen_loss (st : WGANTrainer) (z : List Latent) : ℚ :=
  -(tmean ((z.map (st.model_gen.forward st.model_gen.params)).map
      (st.model_disc.forward st.model_disc.params)))

/-- A concrete generator for evaluations: one parameter, and the image
produced from any latent is the one-pixel image holding that parameter. -/
def cGen : GenModel :=
  { params := [0], forward := fun p _ => [p.headD 0],
    requiresGrad := true, training := true }

/-- A concrete critic with no parameters: the score of an image is its
first pixel. -/
def cDisc : DiscModel :=
  { params := [], forward := fun _ img => img.headD 0,
    requiresGrad := true, training := true }

/-- A concrete critic holding the single parameter value 5. -/
def cDisc5 : DiscModel :=
  { params := [5], forward := fun _ img => img.headD 0,
    requiresGrad := true, training := true }

/-- A concrete generator optimizer: add one to every parameter. -/
def cGenOpt : GenOptimizer := { step := fun g _ _ => g.map (· + 1) }

/-- A concrete critic optimizer: keep the parameters unchanged, so that what
the clamp does afterwards is visible in isolation. -/
def cDiscOpt : DiscOptimizer := { step := fun d _ _ => d }

/-- A nine-batch loader, each batch one zero image with label 0. -/
def cLoader9 : List (List Image × ℕ) := List.replicate 9 ([[0]], 0)

/-- A constant single-epoch random stream of latent batches. -/
def cZs : ℕ → List Latent := fun _ => [[0]]

/-- A constant per-epoch random stream of latent batches. -/
def cZs2 : ℕ → ℕ → List Latent := fun _ _ => [[0]]

/-- A concrete trainer with three critic steps per generator step. -/
def cTrainer3 : WGANTrainer :=
  WGANTrainer.init cGen cDisc cGenOpt cDiscOpt 3 1000 []

/-- A concrete trainer whose critic holds the parameter value 5, built with
clip value 1/100. -/
def cTrainer5 : WGANTrainer :=
  WGANTrainer.init cGen cDisc5 cGenOpt cDiscOpt 1 (1 / 100) []

/-- Claim C2, as amended: the declared default of the `weight_cliping`
parameter of the trainer constructor is 0.001, so a construction that does
not supply a clip value uses the bound 0.001 in the clamp of the critic
step. -/
theorem init_default_weight_cliping_eq (model_gen : GenModel)
    (model_disc : DiscModel) (optimizer_gen : GenOptimizer)
    (optimizer_disc : DiscOptimizer) (fixed_z : List Latent) :
    (WGANTrainer.init_default model_gen model_disc optimizer_gen
        optimizer_disc fixed_z).weight_cliping = 1 / 1000 :=
  rfl

/-- Claim C2, counterexample to the claim as stated: a trainer built without
supplying a clip value does not have clipping bound 0.01. -/
theorem init_default_weight_cliping_ne_hundredth :
    (WGANTrainer.init_default cGen cDisc cGenOpt cDiscOpt
        []).weight_cliping ≠ 1 / 100 := by
  norm_num [WGANTrainer.init_default, WGANTrainer.init, default_weight_cliping]

/-- Claim C5: a critic step leaves the generator untouched, parameters
included bit for bit, and appends nothing to the generator loss log: the
generator output is detached and only the critic optimizer is stepped. -/
theorem disc_step_preserves_generator (st : WGANTrainer) (z : List Latent)
    (real_images : List Image) :
    (st.disc_step z real_images).model_gen = st.model_gen ∧
    (st.disc_step z real_images).gen_loss_log = st.gen_loss_log :=
  ⟨rfl, rfl⟩

/-- Claim C6: a generator step leaves the critic untouched, parameters
included bit for bit, and appends nothing to the critic loss log: the critic
only scores the fake batch and only the generator optimizer is stepped. -/
theorem gen_step_preserves_critic (st : WGANTrainer) (z : List Latent) :
    (st.gen_step z).model_disc = st.model_disc ∧
    (st.gen_step z).disc_loss_log = st.disc_loss_log :=
  ⟨rfl, rfl⟩

/-- Claim C8: the value the critic step appends to its loss log is the
negative Wasserstein estimate `-(mean(critic(real)) - mean(critic(fake)))`
with the fake batch the detached generator output, and the value the
generator step appends is `-mean(critic(generator(z)))`; both compared
against the formulas written from the spec text. -/
theorem step_losses_match_spec_formulas (st : WGANTrainer) (z : List Latent)
    (real_images : List Image) :
    (st.disc_step z real_images).disc_loss_log
        = st.disc_loss_log ++ [spec_disc_loss st z real_images] ∧
    (st.gen_step z).gen_loss_log = st.gen_loss_log ++ [spec_gen_loss st z] :=
  ⟨rfl, rfl⟩

/-- Claim C9: one critic step followed by one generator step is
deterministic: two runs from equal initial states on equal latent and real
batches produce equal resulting states, hence equal loss logs and equal
parameters in both networks. -/
theorem disc_then_gen_deterministic (st st' : WGANTrainer)
    (z z' : List Latent) (real_images real_images' : List Image)
    (hst : st = st') (hz : z = z') (hr : real_images = real_images') :
    (st.disc_step z real_images).gen_step z
      = (st'.disc_step z' real_images').gen_step z' := by
  subst hst; subst hz; subst hr; rfl

/-- Witness for claim C9 at a concrete trainer and concrete batches. -/
theorem disc_then_gen_deterministic_witness :
    cTrainer3 = cTrainer3 ∧ ([[0]] : List Latent) = [[0]] ∧
    ([[0]] : List Image) = [[0]] ∧
    (cTrainer3.disc_step [[0]] [[0]]).gen_step [[0]]
      = (cTrainer3.disc_step [[0]] [[0]]).gen_step [[0]] :=
  ⟨rfl, rfl, rfl,
    disc_then_gen_deterministic cTrainer3 cTrainer3 [[0]] [[0]] [[0]] [[0]]
      rfl rfl rfl⟩

/-- Claim C10: the constructor applies no clamp: it stores the critic
parameters exactly as given, so a freshly built trainer can hold critic
parameters outside the clip box, as the concrete trainer with critic
parameter 5 and clip 1/100 shows; the box invariant is first established
when the first critic step returns. -/
theorem init_applies_no_clamp :
    (∀ (model_gen : GenModel) (model_disc : DiscModel)
        (optimizer_gen : GenOptimizer) (optimizer_disc : DiscOptimizer)
        (n_disc_steps : ℕ) (weight_cliping : ℚ) (fixed_z : List Latent),
        (WGANTrainer.init model_gen model_disc optimizer_gen optimizer_disc
            n_disc_steps weight_cliping fixed_z).model_disc.params
          = model_disc.params) ∧
    cTrainer5.model_disc.params = [5] ∧
    cTrainer5.weight_cliping < 5 ∧
    (cTrainer5.disc_step [[0]] [[0]]).model_disc.params = [1 / 100] :=
  ⟨fun _ _ _ _ _ _ _ => rfl, rfl,
    by norm_num [cTrainer5, WGANTrainer.init],
    by norm_num [cTrainer5, WGANTrainer.init, WGANTrainer.disc_step,
      WGANTrainer.clamp_weights, clampScalar, cDisc5, cDiscOpt, cGen,
      min_def, max_def]⟩

/-- Clamping one scalar into the symmetric box keeps it in the box, as soon
as the clip value is nonnegative. -/
lemma clampScalar_bounds (c x : ℚ) (h : 0 ≤ c) :
    -c ≤ clampScalar (-c) c x ∧ clampScalar (-c) c x ≤ c :=
  ⟨le_min (neg_le_self h) (le_max_left _ _), min_le_left _ _⟩

/-- Claim C1: right after a critic step returns, every critic parameter lies
in the closed box given by the clip value (for any nonnegative clip value,
any inputs and any behavior of the external optimizer), while the generator
parameters are left exactly as they were, so no such bound is imposed on
them. -/
theorem disc_step_clamps_critic_box (st : WGANTrainer) (z : List Latent)
    (real_images : List Image) (h : 0 ≤ st.weight_cliping) :
    (∀ p ∈ (st.disc_step z real_images).model_disc.params,
        -st.weight_cliping ≤ p ∧ p ≤ st.weight_cliping) ∧
    (st.disc_step z real_images).model_gen.params = st.model_gen.params := by
  refine ⟨?_, rfl⟩
  intro p hp
  have hrep : (st.disc_step z real_images).model_disc.params
      = (st.optimizer_disc.step st.model_disc.params
          (z.map (st.model_gen.forward st.model_gen.params)) real_images).map
          (clampScalar (-st.weight_cliping) st.weight_cliping) := rfl
  rw [hrep] at hp
  obtain ⟨q, -, rfl⟩ := List.mem_map.mp hp
  exact clampScalar_bounds st.weight_cliping q h

/-- Witness for claim C1 at a concrete trainer with clip 1/100 and a critic
parameter far outside the box before the step. -/
theorem disc_step_clamps_critic_box_witness :
    (0 : ℚ) ≤ cTrainer5.weight_cliping ∧
    ((∀ p ∈ (cTrainer5.disc_step [[0]] [[0]]).model_disc.params,
        -cTrainer5.weight_cliping ≤ p ∧ p ≤ cTrainer5.weight_cliping) ∧
      (cTrainer5.disc_step [[0]] [[0]]).model_gen.params
        = cTrainer5.model_gen.params) :=
  ⟨by norm_num [cTrainer5, WGANTrainer.init],
    disc_step_clamps_critic_box cTrainer5 [[0]] [[0]]
      (by norm_num [cTrainer5, WGANTrainer.init])⟩

/-- A critic step does not change `n_disc_steps`. -/
lemma disc_step_n_disc_steps (st : WGANTrainer) (z : List Latent)
    (real_images : List Image) :
    (st.disc_step z real_images).n_disc_steps = st.n_disc_steps := rfl

/-- What one enumerated loop iteration does to the loss logs: the schedule
counter is unchanged, exactly one entry is appended to the critic log, and
one entry is appended to the generator log exactly when the batch index is
divisible by `n_disc_steps`. -/
lemma train_epoch_step_spec (st : WGANTrainer) (zs : ℕ → List Latent)
    (batch_num : ℕ) (real_images : List Image) :
    (st.train_epoch_step zs batch_num real_images).n_disc_steps
        = st.n_disc_steps ∧
    (st.train_epoch_step zs batch_num real_images).disc_loss_log
        = st.disc_loss_log ++ [spec_disc_loss st (zs batch_num) real_images] ∧
    ∃ gl : List ℚ,
      (st.train_epoch_step zs batch_num real_images).gen_loss_log
          = st.gen_loss_log ++ gl ∧
      gl.length = if batch_num % st.n_disc_steps = 0 then 1 else 0 := by
  unfold WGANTrainer.train_epoch_step
  by_cases hb : batch_num % st.n_disc_steps = 0
  · have hb' : batch_num %
        ((st.disc_step (zs batch_num) real_images)).n_disc_steps = 0 := hb
    rw [if_pos hb']
    exact ⟨rfl, rfl,
      [spec_gen_loss
        { st.disc_step (zs batch_num) real_images with
          model_disc := set_model_require_grad_disc
            (st.disc_step (zs batch_num) real_images).model_disc false,
          model_gen := set_model_require_grad_gen
            (st.disc_step (zs batch_num) real_images).model_gen true }
        (zs batch_num)],
      rfl, by rw [if_pos hb]; rfl⟩
  · have hb' : ¬ batch_num %
        ((st.disc_step (zs batch_num) real_images)).n_disc_steps = 0 := hb
    rw [if_neg hb']
    exact ⟨rfl, rfl, [], by rw [List.append_nil]; rfl, by rw [if_neg hb]; rfl⟩

/-- What the enumerated batch loop, started at index `batch_num`, does to the
loss logs: the critic log is extended by exactly one entry per batch, the
generator log by exactly one entry per batch index divisible by
`n_disc_steps`, existing entries untouched, and the schedule counter is
unchanged. -/
lemma train_epoch_batches_spec (zs : ℕ → List Latent) :
    ∀ (batches : List (List Image × ℕ)) (batch_num : ℕ) (st : WGANTrainer),
      ∃ dt gt : List ℚ,
        (WGANTrainer.train_epoch_batches zs batch_num batches st).disc_loss_log
            = st.disc_loss_log ++ dt ∧
        dt.length = batches.length ∧
        (WGANTrainer.train_epoch_batches zs batch_num batches st).gen_loss_log
            = st.gen_loss_log ++ gt ∧
        gt.length = (List.range' batch_num batches.length).countP
            (fun j => j % st.n_disc_steps == 0) ∧
        (WGANTrainer.train_epoch_batches zs batch_num batches st).n_disc_steps
            = st.n_disc_steps := by
  intro batches
  induction batches with
  | nil =>
      intro batch_num st
      exact ⟨[], [], by simp [WGANTrainer.train_epoch_batches],
        rfl, by simp [WGANTrainer.train_epoch_batches],
        by simp [WGANTrainer.train_epoch_batches], rfl⟩
  | cons b rest ih =>
      intro batch_num st
      obtain ⟨hn, hd, gl, hg, hgl⟩ := train_epoch_step_spec st zs batch_num b.1
      obtain ⟨dt, gt, ihd, ihdl, ihg, ihgl, ihn⟩ :=
        ih (batch_num + 1) (st.train_epoch_step zs batch_num b.1)
      rw [hn] at ihgl
      refine ⟨spec_disc_loss st (zs batch_num) b.1 :: dt, gl ++ gt,
        ?_, ?_, ?_, ?_, ?_⟩
      · show (WGANTrainer.train_epoch_batches zs (batch_num + 1) rest
            (st.train_epoch_step zs batch_num b.1)).disc_loss_log = _
        rw [ihd, hd, List.append_assoc]
        rfl
      · simp [ihdl]
      · show (WGANTrainer.train_epoch_batches zs (batch_num + 1) rest
            (st.train_epoch_step zs batch_num b.1)).gen_loss_log = _
        rw [ihg, hg, List.append_assoc]
      · rw [List.length_append, hgl, ihgl, List.length_cons, List.range'_succ,
          List.countP_cons]
        by_cases hb : batch_num % st.n_disc_steps = 0
        · simp [hb, Nat.add_comm]
        · simp [hb]
      · show (WGANTrainer.train_epoch_batches zs (batch_num + 1) rest
            (st.train_epoch_step zs batch_num b.1)).n_disc_steps = _
        rw [ihn, hn]

/-- Claim C4: over the first `t` batches of any loader, the critic step fires
exactly once per batch index (the critic log grows by exactly the number of
batches processed) and the generator step fires exactly on the batch indices
divisible by `n_disc_steps` (the generator log grows by exactly the count of
such indices); since this holds for every prefix length `t`, the generator
entries appear exactly at the divisible indices and at no others. -/
theorem train_epoch_fires_on_schedule (st : WGANTrainer)
    (train_loader : List (List Image × ℕ)) (zs : ℕ → List Latent) (t : ℕ)
    (h : 1 ≤ st.n_disc_steps) :
    (st.train_epoch (train_loader.take t) zs).disc_loss_log.length
        = st.disc_loss_log.length + (train_loader.take t).length ∧
    (st.train_epoch (train_loader.take t) zs).gen_loss_log.length
        = st.gen_loss_log.length
          + (List.range (train_loader.take t).length).countP
              (fun i => i % st.n_disc_steps == 0) := by
  obtain ⟨dt, gt, hd, hdl, hg, hgl, -⟩ :=
    train_epoch_batches_spec zs (train_loader.take t) 0
      { st with
        model_disc := set_model_require_grad_disc st.model_disc true,
        model_gen := set_model_require_grad_gen st.model_gen false }
  have e1 : (st.train_epoch (train_loader.take t) zs).disc_loss_log
      = st.disc_loss_log ++ dt := hd
  have e2 : (st.train_epoch (train_loader.take t) zs).gen_loss_log
      = st.gen_loss_log ++ gt := hg
  have e3 : gt.length = (List.range' 0 (train_loader.take t).length).countP
      (fun j => j % st.n_disc_steps == 0) := hgl
  refine ⟨?_, ?_⟩
  · rw [e1, List.length_append, hdl]
  · rw [e2, List.length_append, e3, ← List.range_eq_range']

/-- Witness for claim C4 at a concrete trainer with three critic steps per
generator step and a nine-batch loader. -/
theorem train_epoch_fires_on_schedule_witness :
    (cTrainer3.train_epoch (cLoader9.take 9) cZs).disc_loss_log.length
        = cTrainer3.disc_loss_log.length + (cLoader9.take 9).length ∧
    (cTrainer3.train_epoch (cLoader9.take 9) cZs).gen_loss_log.length
        = cTrainer3.gen_loss_log.length
          + (List.range (cLoader9.take 9).length).countP
              (fun i => i % cTrainer3.n_disc_steps == 0) :=
  train_epoch_fires_on_schedule cTrainer3 cLoader9 cZs 9 (by decide)

/-- Claim C7: with three critic steps per generator step and a loader of
exactly nine batches, one epoch appends exactly nine entries to the critic
loss log and exactly three entries to the generator loss log, leaving every
existing entry of both logs in place. -/
theorem train_epoch_nine_batches_appends (st : WGANTrainer)
    (train_loader : List (List Image × ℕ)) (zs : ℕ → List Latent)
    (h3 : st.n_disc_steps = 3) (h9 : train_loader.length = 9) :
    (st.train_epoch train_loader zs).disc_loss_log.take
        st.disc_loss_log.length = st.disc_loss_log ∧
    (st.train_epoch train_loader zs).disc_loss_log.length
        = st.disc_loss_log.length + 9 ∧
    (st.train_epoch train_loader zs).gen_loss_log.take
        st.gen_loss_log.length = st.gen_loss_log ∧
    (st.train_epoch train_loader zs).gen_loss_log.length
        = st.gen_loss_log.length + 3 := by
  obtain ⟨dt, gt, hd, hdl, hg, hgl, -⟩ :=
    train_epoch_batches_spec zs train_loader 0
      { st with
        model_disc := set_model_require_grad_disc st.model_disc true,
        model_gen := set_model_require_grad_gen st.model_gen false }
  have e1 : (st.train_epoch train_loader zs).disc_loss_log
      = st.disc_loss_log ++ dt := hd
  have e2 : (st.train_epoch train_loader zs).gen_loss_log
      = st.gen_loss_log ++ gt := hg
  have e3 : gt.length = (List.range' 0 train_loader.length).countP
      (fun j => j % st.n_disc_steps == 0) := hgl
  rw [h9] at hdl
  rw [h9, h3] at e3
  have e4 : (List.range' 0 9).countP (fun j => j % 3 == 0) = 3 := by decide
  refine ⟨?_, ?_, ?_, ?_⟩
  · rw [e1, List.take_left]
  · rw [e1, List.length_append, hdl]
  · rw [e2, List.take_left]
  · rw [e2, List.length_append, e3, e4]

/-- Witness for claim C7 at a concrete trainer and a concrete nine-batch
loader. -/
theorem train_epoch_nine_batches_appends_witness :
    (cTrainer3.train_epoch cLoader9 cZs).disc_loss_log.take
        cTrainer3.disc_loss_log.length = cTrainer3.disc_loss_log ∧
    (cTrainer3.train_epoch cLoader9 cZs).disc_loss_log.length
        = cTrainer3.disc_loss_log.length + 9 ∧
    (cTrainer3.train_epoch cLoader9 cZs).gen_loss_log.take
        cTrainer3.gen_loss_log.length = cTrainer3.gen_loss_log ∧
    (cTrainer3.train_epoch cLoader9 cZs).gen_loss_log.length
        = cTrainer3.gen_loss_log.length + 3 :=
  train_epoch_nine_batches_appends cTrainer3 cLoader9 cZs rfl rfl

/-- Claim C3, evaluated at the failing input: with three critic steps per
generator step and a nine-batch loader, after the second epoch the code
reports `np.mean(gen_loss_log[-len_loader:])` with `len_loader = 9`, which
averages all six generator entries accumulated over both epochs, giving
-5/2; the entries appended during the second epoch are `[-3, -4, -5]`, whose
mean is -4, so the reported value is not the mean over the number of
generator entries appended during this epoch. -/
theorem train_gen_report_slice_eval :
    ((cTrainer3.train 2 cLoader9 cZs2).2.getD 1 (0, 0)).1 = -(5 / 2) ∧
    (cTrainer3.train 2 cLoader9 cZs2).1.gen_loss_log
        = [0, -1, -2, -3, -4, -5] ∧
    (cTrainer3.train 1 cLoader9 cZs2).1.gen_loss_log = [0, -1, -2] ∧
    tmean [-3, -4, -5] = -4 ∧ (-(5 / 2) : ℚ) ≠ -4 := by
  set_option maxRecDepth 8000 in
  norm_num [cTrainer3, cLoader9, cZs2, cGen, cDisc, cGenOpt, cDiscOpt,
    WGANTrainer.init, WGANTrainer.train, WGANTrainer.train_go,
    WGANTrainer.train_epoch, WGANTrainer.train_epoch_batches,
    WGANTrainer.train_epoch_step, WGANTrainer.disc_step, WGANTrainer.gen_step,
    WGANTrainer.clamp_weights, set_model_require_grad_gen,
    set_model_require_grad_disc, WGANTrainer.train_report, last_slice,
    tmean, clampScalar, List.replicate, List.getD]
